import Mathlib

/-!
Verification of the activity execution-context subsystem of `internal/activity.go`
(data model, deadline computation, context attachment for remote and local
activity tasks, info/heartbeat accessors, and heartbeat dispatch).

Modelling conventions:
* `time.Time` and `time.Duration` are modelled as `Int` (nanoseconds); the Go
  zero value of both is `0`, and `t.Add d` is `t + d`, `t.Before u` is `t < u`.
* Byte payloads (`*commonpb.Payloads`, `[]byte`) are opaque: `List Nat`, with
  Go `nil` modelled as `Option.none`.
* A variadic `...interface{}` argument is a `List (Option Nat)`; an element
  `Option.none` models a Go `nil` interface value.
* The data converter is an opaque codec (an injected record of an encode and a
  decode function), as the source treats it.
* A Go `context.Context` is modelled by the only part of it this file touches:
  the stack of values attached under `activityEnvContextKey` (attachment pushes,
  lookup reads the most recent, shadowing the rest).  An empty stack is a
  context with no attached environment; `getActivityEnv` on it returns `none`,
  modelling the panic of the type assertion in the Go helper.
* Effects of `RecordActivityHeartbeat` (panic on encode failure, the single
  invoker call with its payload and `skipBatching` flag, the debug log of an
  invoker error) are reified in the `HeartbeatOutcome` type.
-/

/-- Opaque encoded payload bytes (`*commonpb.Payloads`). -/
abbrev Payloads := List Nat

/-- An opaque detail value; `Option.none` models a Go `nil` interface value. -/
abbrev Value := Option Nat

/-- An opaque caller-supplied output slot for decoding heartbeat details. -/
abbrev Slot := Nat

/-- Opaque error value (Go `error`). -/
abbrev ErrorValue := String

/-- Data converter, treated as an opaque codec: `encodeArgs` on the encode
side, and the `Get` of `newEncodedValues` on the decode side. -/
structure DataConverter where
  encode : List Value → Except ErrorValue Payloads
  decode : Payloads → List Slot → Option ErrorValue

/-- ServiceInvoker, restricted to the one operation this file calls: the
`Heartbeat(ctx, details, skipBatching)` method, returning `none` for a nil
error.  (`Close` and `GetClient` are never invoked here.) -/
abbrev ServiceInvoker := Option Payloads → Bool → Option ErrorValue

/-- ActivityType identifies an activity type (a name string). -/
structure ActivityType where
  Name : String
deriving DecidableEq

/-- WorkflowType identifies a workflow type (a name string). -/
structure WorkflowType where
  Name : String
deriving DecidableEq

/-- WorkflowExecution identity pair: workflow id and run id. -/
structure WorkflowExecution where
  ID : String
  RunID : String
deriving DecidableEq

/-- ActivityInfo: the read view returned by `GetActivityInfo`. -/
structure ActivityInfo where
  TaskToken : Option (List Nat)
  WorkflowType : Option WorkflowType
  WorkflowNamespace : String
  WorkflowExecution : WorkflowExecution
  ActivityID : String
  ActivityType : ActivityType
  TaskQueue : String
  HeartbeatTimeout : Int
  ScheduledTime : Int
  StartedTime : Int
  Deadline : Int
  Attempt : Int
deriving DecidableEq

/-- The internal activityEnvironment stored under the context key.  Fields
that no claim observes and that carry no data (logger, metrics scope, tracer,
worker stop channel, context propagators) are omitted; the one observable
effect through the logger (the debug log in `RecordActivityHeartbeat`) is
reified in `HeartbeatOutcome`. -/
structure activityEnvironment where
  taskToken : Option (List Nat) := Option.none
  serviceInvoker : Option ServiceInvoker := Option.none
  activityType : ActivityType := ⟨""⟩
  activityID : String := ""
  workflowExecution : WorkflowExecution := ⟨"", ""⟩
  heartbeatTimeout : Int := 0
  deadline : Int := 0
  scheduledTime : Int := 0
  startedTime : Int := 0
  taskQueue : String := ""
  dataConverter : DataConverter
  attempt : Int := 0
  heartbeatDetails : Option Payloads := Option.none
  workflowType : Option WorkflowType := Option.none
  workflowNamespace : String := ""
  isLocalActivity : Bool := false

/-- The slice of a Go `context.Context` this file touches: the stack of values
attached under `activityEnvContextKey`, most recent first. -/
abbrev Context := List activityEnvironment

/-- A fresh background context: nothing attached. -/
def Context.background : Context := []

/-- `context.WithValue(ctx, activityEnvContextKey, env)`: the new value
shadows any earlier one. -/
def withValue (ctx : Context) (env : activityEnvironment) : Context := env :: ctx

/-- The `getActivityEnv` helper: reads the environment attached under the
activity context key; `none` models the panic on a context without one. -/
def getActivityEnv (ctx : Context) : Option activityEnvironment := ctx.head?

/-- Proto time field accessor `common.TimeValue`: nil means the zero time. -/
def TimeValue (t : Option Int) : Int := t.getD 0

/-- Proto duration field accessor `common.DurationValue`: nil means 0. -/
def DurationValue (d : Option Int) : Int := d.getD 0

/-- Proto message `WorkflowExecution` as delivered on a poll response. -/
structure WorkflowExecutionProto where
  WorkflowId : String
  RunId : String

/-- The task descriptor `*workflowservice.PollActivityTaskQueueResponse`,
restricted to the fields `WithActivityTask` reads.  `WorkflowType` and
`ActivityType` are nilable messages whose only read is `GetName()`, so they
are modelled as their nilable name. -/
structure PollActivityTaskQueueResponse where
  TaskToken : Option (List Nat)
  WorkflowNamespace : String
  WorkflowTypeName : Option String
  WorkflowExecution : WorkflowExecutionProto
  ActivityTypeName : Option String
  ActivityId : String
  HeartbeatDetails : Option Payloads
  ScheduledTime : Option Int
  StartedTime : Option Int
  ScheduleToCloseTimeout : Option Int
  StartToCloseTimeout : Option Int
  HeartbeatTimeout : Option Int
  Attempt : Int

/-- Nil-safe `GetName()` on a nilable proto message. -/
def getName (n : Option String) : String := n.getD ""

/-- GetActivityInfo returns information about the currently executing
activity; `none` models the panic on a context with no environment. -/
def GetActivityInfo (ctx : Context) : Option ActivityInfo :=
  (getActivityEnv ctx).map fun env =>
    { ActivityID := env.activityID
      ActivityType := env.activityType
      TaskToken := env.taskToken
      WorkflowExecution := env.workflowExecution
      HeartbeatTimeout := env.heartbeatTimeout
      Deadline := env.deadline
      ScheduledTime := env.scheduledTime
      StartedTime := env.startedTime
      TaskQueue := env.taskQueue
      Attempt := env.attempt
      WorkflowType := env.workflowType
      WorkflowNamespace := env.workflowNamespace }

/-- HasHeartbeatDetails checks if there are heartbeat details from the last
attempt (`env.heartbeatDetails != nil`). -/
def HasHeartbeatDetails (ctx : Context) : Option Bool :=
  (getActivityEnv ctx).map fun env => env.heartbeatDetails.isSome

/-- Error result of `GetHeartbeatDetails`: the `ErrNoData` sentinel, or a
decoding error propagated from the codec. -/
inductive HeartbeatDetailsError where
  | ErrNoData : HeartbeatDetailsError
  | decodeError (e : ErrorValue) : HeartbeatDetailsError
deriving DecidableEq

/-- GetHeartbeatDetails extracts heartbeat details from the last failed
attempt into the caller-supplied output slots: `ErrNoData` when no payload is
stored, otherwise the decode through `newEncodedValues(payload, dc).Get(d...)`
(modelled from the spec: the codec's decode side, an external collaborator not
under src), propagating its failure. -/
def GetHeartbeatDetails (ctx : Context) (d : List Slot) :
    Option (Except HeartbeatDetailsError Unit) :=
  (getActivityEnv ctx).map fun env =>
    match env.heartbeatDetails with
    | Option.none => Except.error HeartbeatDetailsError.ErrNoData
    | Option.some payload =>
      match env.dataConverter.decode payload d with
      | Option.some e => Except.error (HeartbeatDetailsError.decodeError e)
      | Option.none => Except.ok ()

/-- Reified outcome of one call to `RecordActivityHeartbeat`:
* `noop` — the early return on a local-activity environment;
* `panicked e` — the `panic(err)` on an encode failure (the invoker is never
  called on this path);
* `nilInvokerFault` — the method call on a nil `serviceInvoker` (unreachable
  from the two constructors);
* `sent payload skipBatching loggedError` — exactly one invoker call
  `Heartbeat(ctx, payload, skipBatching)` was made; `loggedError` is its error
  result, which, when present, was logged at debug level and then dropped (the
  function returns normally, surfacing nothing to the caller). -/
inductive HeartbeatOutcome where
  | noop : HeartbeatOutcome
  | panicked (e : ErrorValue) : HeartbeatOutcome
  | nilInvokerFault : HeartbeatOutcome
  | sent (payload : Option Payloads) (skipBatching : Bool)
      (loggedError : Option ErrorValue) : HeartbeatOutcome
deriving DecidableEq

/-- The encode guard of `RecordActivityHeartbeat`:
`len(details) > 1 || (len(details) == 1 && details[0] != nil)`. -/
def needEncode (details : List Value) : Bool :=
  decide (1 < details.length) ||
    (decide (details.length = 1) && decide (details.head? ≠ Option.some Option.none))

/-- The dispatch tail of `RecordActivityHeartbeat`: the call
`env.serviceInvoker.Heartbeat(ctx, data, false)` followed by the debug log of
a non-nil error. -/
def heartbeatDispatch (env : activityEnvironment) (data : Option Payloads) :
    HeartbeatOutcome :=
  match env.serviceInvoker with
  | Option.none => HeartbeatOutcome.nilInvokerFault
  | Option.some invoker => HeartbeatOutcome.sent data false (invoker data false)

/-- RecordActivityHeartbeat sends a heartbeat for the currently executing
activity: a no-op for local activities; otherwise the details are encoded
through the environment's data converter unless they are empty or a single
nil (`getDataConverterFromActivityCtx` — modelled from the spec: it yields the
context environment's injected converter — and `encodeArgs`, the codec's
encode side, are external to src); an encode failure panics; the payload is
dispatched with `skipBatching = false` and an invoker error is logged and
swallowed. -/
def RecordActivityHeartbeat (ctx : Context) (details : List Value) :
    Option HeartbeatOutcome :=
  (getActivityEnv ctx).map fun env =>
    if env.isLocalActivity then
      HeartbeatOutcome.noop
    else if needEncode details then
      match env.dataConverter.encode details with
      | Except.error err => HeartbeatOutcome.panicked err
      | Except.ok data => heartbeatDispatch env (Option.some data)
    else
      heartbeatDispatch env Option.none

/-- WithActivityTask adds activity-specific information into the context:
computes the deadline from the task's scheduled/started times and the
schedule-to-close / start-to-close timeouts, and attaches the populated
environment. -/
def WithActivityTask (ctx : Context) (task : PollActivityTaskQueueResponse)
    (taskQueue : String) (invoker : ServiceInvoker)
    (dataConverter : DataConverter) : Context :=
  let scheduled := TimeValue task.ScheduledTime
  let started := TimeValue task.StartedTime
  let scheduleToCloseTimeout := DurationValue task.ScheduleToCloseTimeout
  let startToCloseTimeout := DurationValue task.StartToCloseTimeout
  let heartbeatTimeout := DurationValue task.HeartbeatTimeout
  let startToCloseDeadline := started + startToCloseTimeout
  let deadline :=
    if 0 < scheduleToCloseTimeout then
      let scheduleToCloseDeadline := scheduled + scheduleToCloseTimeout
      if scheduleToCloseDeadline < startToCloseDeadline then
        scheduleToCloseDeadline
      else
        startToCloseDeadline
    else
      startToCloseDeadline
  withValue ctx
    { taskToken := task.TaskToken
      serviceInvoker := Option.some invoker
      activityType := ⟨getName task.ActivityTypeName⟩
      activityID := task.ActivityId
      workflowExecution :=
        { RunID := task.WorkflowExecution.RunId
          ID := task.WorkflowExecution.WorkflowId }
      deadline := deadline
      heartbeatTimeout := heartbeatTimeout
      scheduledTime := scheduled
      startedTime := started
      taskQueue := taskQueue
      dataConverter := dataConverter
      attempt := task.Attempt
      heartbeatDetails := task.HeartbeatDetails
      workflowType := Option.some ⟨getName task.WorkflowTypeName⟩
      workflowNamespace := task.WorkflowNamespace }

/-- The owning workflow's info read by the local-activity constructor. -/
structure WorkflowInfo where
  WorkflowType : WorkflowType
  Namespace : String
  TaskQueueName : String
  WorkflowExecution : WorkflowExecution

/-- Parameters of a local-activity execution, restricted to the fields
`WithLocalActivityTask` reads. -/
structure ExecuteLocalActivityParams where
  WorkflowInfo : WorkflowInfo
  ActivityType : String

/-- The in-process `localActivityTask` descriptor, restricted to the fields
`WithLocalActivityTask` reads. -/
structure localActivityTask where
  params : ExecuteLocalActivityParams
  activityID : String
  attempt : Int

/-- WithLocalActivityTask adds local-activity-specific information into the
context: a nil base context is replaced by a fresh background context, and
the attached environment carries `isLocalActivity = true`, identity copied
from the owning workflow's info, and Go zero values for every field the
constructor does not set (task token, service invoker, timings, heartbeat
state). -/
def WithLocalActivityTask (ctx : Option Context) (task : localActivityTask)
    (dataConverter : DataConverter) : Context :=
  let ctx := ctx.getD Context.background
  let workflowTypeLocal := task.params.WorkflowInfo.WorkflowType
  let activityType := task.params.ActivityType
  withValue ctx
    { workflowType := Option.some workflowTypeLocal
      workflowNamespace := task.params.WorkflowInfo.Namespace
      taskQueue := task.params.WorkflowInfo.TaskQueueName
      activityType := ⟨activityType⟩
      activityID := task.activityID
      workflowExecution := task.params.WorkflowInfo.WorkflowExecution
      isLocalActivity := true
      dataConverter := dataConverter
      attempt := task.attempt }

/-! Shared concrete fixtures used by witnesses and counterexamples. -/

/-- Sample codec: encoding always yields the payload `[7]`, decoding always
succeeds. -/
def sampleConverter : DataConverter :=
  { encode := fun _ => Except.ok [7], decode := fun _ _ => Option.none }

/-- Sample codec whose encode and decode both fail. -/
def failingConverter : DataConverter :=
  { encode := fun _ => Except.error "encode failed",
    decode := fun _ _ => Option.some "decode failed" }

/-- Sample invoker whose heartbeat call always succeeds. -/
def sampleInvoker : ServiceInvoker := fun _ _ => Option.none

/-- Sample invoker whose heartbeat call always fails. -/
def failingInvoker : ServiceInvoker := fun _ _ => Option.some "hb failed"

/-- Sample remote task, with the timing of the scenario in the spec:
scheduled at 0, started at 2s, schedule-to-close 30s, start-to-close 10s. -/
def sampleTask : PollActivityTaskQueueResponse :=
  { TaskToken := Option.some [1, 2, 3]
    WorkflowNamespace := "ns"
    WorkflowTypeName := Option.some "wf"
    WorkflowExecution := { WorkflowId := "wid", RunId := "rid" }
    ActivityTypeName := Option.some "act"
    ActivityId := "aid"
    HeartbeatDetails := Option.none
    ScheduledTime := Option.some 0
    StartedTime := Option.some 2
    ScheduleToCloseTimeout := Option.some 30
    StartToCloseTimeout := Option.some 10
    HeartbeatTimeout := Option.some 5
    Attempt := 1 }

/-- Sample remote environment with a succeeding invoker and codec and no
stored heartbeat payload. -/
def remoteEnvSample : activityEnvironment :=
  { serviceInvoker := Option.some sampleInvoker
    dataConverter := sampleConverter }

/-- Sample remote environment whose invoker fails. -/
def failingInvokerEnv : activityEnvironment :=
  { serviceInvoker := Option.some failingInvoker
    dataConverter := sampleConverter }

/-- Sample remote environment whose codec fails. -/
def failingConverterEnv : activityEnvironment :=
  { serviceInvoker := Option.some sampleInvoker
    dataConverter := failingConverter }

/-- Sample remote environment with a stored heartbeat payload and a failing
decode side. -/
def storedDetailsEnv : activityEnvironment :=
  { serviceInvoker := Option.some sampleInvoker
    dataConverter := failingConverter
    heartbeatDetails := Option.some [3] }

/-- Sample local-activity task descriptor. -/
def sampleLocalTask : localActivityTask :=
  { params :=
      { WorkflowInfo :=
          { WorkflowType := ⟨"wf"⟩
            Namespace := "ns"
            TaskQueueName := "tq"
            WorkflowExecution := { ID := "wid", RunID := "rid" } }
        ActivityType := "act" }
    activityID := "la1"
    attempt := 1 }

/-- The encode guard fires exactly on detail lists other than the empty list
and the single-nil list. -/
theorem needEncode_iff (details : List Value) :
    needEncode details = true ↔ details ≠ [] ∧ details ≠ [Option.none] := by
  match details with
  | [] => simp [needEncode]
  | [a] => cases a <;> simp [needEncode]
  | a :: b :: t => simp [needEncode]

/-- Claim C1: for every remote task with scheduleToCloseTimeout > 0 the
deadline attached by `WithActivityTask` equals
min(scheduled + scheduleToCloseTimeout, started + startToCloseTimeout); with
scheduleToCloseTimeout = 0 and startToCloseTimeout > 0 it equals
started + startToCloseTimeout. -/
theorem withActivityTask_deadline (ctx : Context)
    (task : PollActivityTaskQueueResponse) (taskQueue : String)
    (invoker : ServiceInvoker) (dc : DataConverter) :
    (0 < DurationValue task.ScheduleToCloseTimeout →
      Option.map activityEnvironment.deadline
          (getActivityEnv (WithActivityTask ctx task taskQueue invoker dc)) =
        Option.some
          (min (TimeValue task.ScheduledTime + DurationValue task.ScheduleToCloseTimeout)
            (TimeValue task.StartedTime + DurationValue task.StartToCloseTimeout))) ∧
    (DurationValue task.ScheduleToCloseTimeout = 0 →
      0 < DurationValue task.StartToCloseTimeout →
      Option.map activityEnvironment.deadline
          (getActivityEnv (WithActivityTask ctx task taskQueue invoker dc)) =
        Option.some (TimeValue task.StartedTime + DurationValue task.StartToCloseTimeout)) := by
  constructor
  · intro h
    simp only [WithActivityTask, withValue, getActivityEnv, List.head?_cons,
      Option.map_some', Option.some.injEq]
    split_ifs <;> omega
  · intro h0 h1
    simp only [WithActivityTask, withValue, getActivityEnv, List.head?_cons,
      Option.map_some', Option.some.injEq]
    split_ifs <;> omega

/-- Witness for C1: on the spec's scenario task (scheduled 0, started 2,
schedule-to-close 30, start-to-close 10) the attached deadline is
min(30, 12) = 12, and with schedule-to-close 0 it is 12 as well. -/
theorem withActivityTask_deadline_witness :
    (0 < DurationValue sampleTask.ScheduleToCloseTimeout ∧
      Option.map activityEnvironment.deadline
          (getActivityEnv
            (WithActivityTask Context.background sampleTask "tq" sampleInvoker sampleConverter)) =
        Option.some
          (min (TimeValue sampleTask.ScheduledTime + DurationValue sampleTask.ScheduleToCloseTimeout)
            (TimeValue sampleTask.StartedTime + DurationValue sampleTask.StartToCloseTimeout))) ∧
    (min (TimeValue sampleTask.ScheduledTime + DurationValue sampleTask.ScheduleToCloseTimeout)
        (TimeValue sampleTask.StartedTime + DurationValue sampleTask.StartToCloseTimeout) = 12) ∧
    Option.map activityEnvironment.deadline
        (getActivityEnv
          (WithActivityTask Context.background { sampleTask with ScheduleToCloseTimeout := Option.some 0 }
            "tq" sampleInvoker sampleConverter)) =
      Option.some (TimeValue sampleTask.StartedTime + DurationValue sampleTask.StartToCloseTimeout) :=
  ⟨⟨by decide,
    (withActivityTask_deadline Context.background sampleTask "tq" sampleInvoker sampleConverter).1
      (by decide)⟩,
   by decide,
   (withActivityTask_deadline Context.background
      { sampleTask with ScheduleToCloseTimeout := Option.some 0 } "tq" sampleInvoker
      sampleConverter).2 (by decide) (by decide)⟩

/-- Remote task violating the claimed info invariant: attempt 0 straight from
the wire, and a schedule-to-close window (scheduled 0 + 5) that closes before
the started time 100. -/
def invariantBreakingTask : PollActivityTaskQueueResponse :=
  { sampleTask with
    Attempt := 0
    StartedTime := Option.some 100
    ScheduleToCloseTimeout := Option.some 5
    StartToCloseTimeout := Option.some 50 }

/-- Counterexample to C2 as stated: on a task with attempt 0, scheduled 0,
started 100, scheduleToCloseTimeout 5 and startToCloseTimeout 50, the info
read back from the freshly attached context has Deadline 5 < StartedTime 100
and Attempt 0 < 1 — the constructor copies the task's fields without
enforcing the invariant. -/
theorem activityInfo_invariant_counterexample :
    ¬ (∀ info : ActivityInfo,
        GetActivityInfo
            (WithActivityTask Context.background invariantBreakingTask "tq"
              sampleInvoker sampleConverter) =
          Option.some info →
        info.StartedTime ≤ info.Deadline ∧ 1 ≤ info.Attempt) := by
  intro h
  have hinfo := h _ rfl
  exact absurd hinfo.2 (by decide)

/-- Claim C2, amended: for every remote task whose attempt is at least 1,
whose startToCloseTimeout is nonnegative, and whose started time does not lie
beyond scheduled + scheduleToCloseTimeout whenever scheduleToCloseTimeout is
positive, the info read from the freshly attached context satisfies
deadline >= startedTime and attempt >= 1. -/
theorem activityInfo_invariant_amended (ctx : Context)
    (task : PollActivityTaskQueueResponse) (taskQueue : String)
    (invoker : ServiceInvoker) (dc : DataConverter)
    (hatt : 1 ≤ task.Attempt)
    (hstc : 0 ≤ DurationValue task.StartToCloseTimeout)
    (hs2c : 0 < DurationValue task.ScheduleToCloseTimeout →
      TimeValue task.StartedTime ≤
        TimeValue task.ScheduledTime + DurationValue task.ScheduleToCloseTimeout) :
    ∀ info : ActivityInfo,
      GetActivityInfo (WithActivityTask ctx task taskQueue invoker dc) =
          Option.some info →
      info.StartedTime ≤ info.Deadline ∧ 1 ≤ info.Attempt := by
  intro info hinfo
  simp only [GetActivityInfo, WithActivityTask, withValue, getActivityEnv,
    List.head?_cons, Option.map_some', Option.some.injEq] at hinfo
  subst hinfo
  refine ⟨?_, hatt⟩
  simp only
  split_ifs with h1 h2 <;> omega

/-- Witness for the amended C2: on the sample task (attempt 1, started 2,
schedule-to-close 30, start-to-close 10) the info satisfies
startedTime 2 <= deadline 12 and 1 <= attempt 1. -/
theorem activityInfo_invariant_amended_witness :
    (2 : Int) ≤ 12 ∧ (1 : Int) ≤ 1 := by
  exact activityInfo_invariant_amended Context.background sampleTask "tq"
    sampleInvoker sampleConverter (by decide) (by decide) (fun _ => by decide) _ rfl

/-- Claim C3: on a remote-activity context, zero details or a single nil
detail skip the encode step and dispatch a heartbeat through the invoker with
a nil payload and skipBatching = false; any other non-empty detail list is
first encoded and the resulting payload is dispatched with
skipBatching = false. -/
theorem recordHeartbeat_dispatch (ctx : Context) (env : activityEnvironment)
    (invoker : ServiceInvoker) (details : List Value)
    (henv : getActivityEnv ctx = Option.some env)
    (hlocal : env.isLocalActivity = false)
    (hinv : env.serviceInvoker = Option.some invoker) :
    ((details = [] ∨ details = [Option.none]) →
      RecordActivityHeartbeat ctx details =
        Option.some
          (HeartbeatOutcome.sent Option.none false (invoker Option.none false))) ∧
    (∀ payload, details ≠ [] → details ≠ [Option.none] →
      env.dataConverter.encode details = Except.ok payload →
      RecordActivityHeartbeat ctx details =
        Option.some
          (HeartbeatOutcome.sent (Option.some payload) false
            (invoker (Option.some payload) false))) := by
  constructor
  · rintro (rfl | rfl) <;>
      simp [RecordActivityHeartbeat, henv, hlocal, needEncode, heartbeatDispatch, hinv]
  · intro payload hne hnn henc
    have hguard : needEncode details = true := (needEncode_iff details).mpr ⟨hne, hnn⟩
    simp [RecordActivityHeartbeat, henv, hlocal, hguard, henc, heartbeatDispatch, hinv]

/-- Witness for C3: on a concrete remote environment, a zero-detail heartbeat
dispatches a nil payload, and a single non-nil detail is encoded (to the
sample codec's payload [7]) and dispatched, both with skipBatching = false. -/
theorem recordHeartbeat_dispatch_witness :
    RecordActivityHeartbeat [remoteEnvSample] [] =
      Option.some (HeartbeatOutcome.sent Option.none false Option.none) ∧
    RecordActivityHeartbeat [remoteEnvSample] [Option.none] =
      Option.some (HeartbeatOutcome.sent Option.none false Option.none) ∧
    RecordActivityHeartbeat [remoteEnvSample] [Option.some 4] =
      Option.some (HeartbeatOutcome.sent (Option.some [7]) false Option.none) :=
  ⟨(recordHeartbeat_dispatch [remoteEnvSample] remoteEnvSample sampleInvoker []
      rfl rfl rfl).1 (Or.inl rfl),
   (recordHeartbeat_dispatch [remoteEnvSample] remoteEnvSample sampleInvoker [Option.none]
      rfl rfl rfl).1 (Or.inr rfl),
   (recordHeartbeat_dispatch [remoteEnvSample] remoteEnvSample sampleInvoker [Option.some 4]
      rfl rfl rfl).2 [7] (by decide) (by decide) rfl⟩

/-- Claim C4: on a remote-activity context whose invoker reports an error on
every heartbeat call, and whose encode step does not fail,
RecordActivityHeartbeat completes as a dispatch outcome carrying that error
as logged at debug level — it neither panics nor propagates the invoker
error. -/
theorem recordHeartbeat_swallows_invoker_error (ctx : Context)
    (env : activityEnvironment) (invoker : ServiceInvoker)
    (details : List Value) (e : ErrorValue)
    (henv : getActivityEnv ctx = Option.some env)
    (hlocal : env.isLocalActivity = false)
    (hinv : env.serviceInvoker = Option.some invoker)
    (herr : ∀ p b, invoker p b = Option.some e)
    (henc : ∀ er, env.dataConverter.encode details ≠ Except.error er) :
    ∃ data,
      RecordActivityHeartbeat ctx details =
        Option.some (HeartbeatOutcome.sent data false (Option.some e)) := by
  simp only [RecordActivityHeartbeat, henv, Option.map_some', hlocal, Bool.false_eq_true,
    if_false, heartbeatDispatch, hinv]
  by_cases hguard : needEncode details = true
  · rcases hok : env.dataConverter.encode details with er | payload
    · exact absurd hok (henc er)
    · exact ⟨Option.some payload, by simp [hguard, hok, herr]⟩
  · exact ⟨Option.none, by simp [hguard, herr]⟩

/-- Witness for C4: on a concrete remote environment whose invoker always
fails, a zero-detail heartbeat returns the dispatched outcome with the
invoker's error logged. -/
theorem recordHeartbeat_swallows_invoker_error_witness :
    ∃ data,
      RecordActivityHeartbeat [failingInvokerEnv] [] =
        Option.some (HeartbeatOutcome.sent data false (Option.some "hb failed")) :=
  recordHeartbeat_swallows_invoker_error [failingInvokerEnv] failingInvokerEnv
    failingInvoker [] "hb failed" rfl rfl rfl (fun _ _ => rfl)
    (by intro er h; simp [sampleConverter, failingInvokerEnv] at h)

/-- Claim C5: on a remote-activity context, if the detail list is neither
empty nor a single nil and encoding it fails, RecordActivityHeartbeat panics
with that encoding error; the outcome holds for every service invoker (the
parameter is unconstrained), so no heartbeat is dispatched. -/
theorem recordHeartbeat_encode_failure_panics (ctx : Context)
    (env : activityEnvironment) (details : List Value) (e : ErrorValue)
    (henv : getActivityEnv ctx = Option.some env)
    (hlocal : env.isLocalActivity = false)
    (hne : details ≠ []) (hnn : details ≠ [Option.none])
    (henc : env.dataConverter.encode details = Except.error e) :
    RecordActivityHeartbeat ctx details =
      Option.some (HeartbeatOutcome.panicked e) := by
  have hguard : needEncode details = true := (needEncode_iff details).mpr ⟨hne, hnn⟩
  simp [RecordActivityHeartbeat, henv, hlocal, hguard, henc]

/-- Witness for C5: on a concrete remote environment with a failing codec, a
single non-nil detail makes RecordActivityHeartbeat panic with the encode
error. -/
theorem recordHeartbeat_encode_failure_panics_witness :
    RecordActivityHeartbeat [failingConverterEnv] [Option.some 1] =
      Option.some (HeartbeatOutcome.panicked "encode failed") :=
  recordHeartbeat_encode_failure_panics [failingConverterEnv] failingConverterEnv
    [Option.some 1] "encode failed" rfl rfl (by decide) (by decide) rfl

/-- Claim C6: on every context whose attached environment has
isLocalActivity = true, RecordActivityHeartbeat is a no-op for every detail
list: the outcome is `noop`, which involves no invoker call and no error,
whatever the environment's invoker field holds. -/
theorem recordHeartbeat_local_noop (ctx : Context) (env : activityEnvironment)
    (details : List Value)
    (henv : getActivityEnv ctx = Option.some env)
    (hlocal : env.isLocalActivity = true) :
    RecordActivityHeartbeat ctx details = Option.some HeartbeatOutcome.noop := by
  simp [RecordActivityHeartbeat, henv, hlocal]

/-- Witness for C6: on the context produced by attaching the sample local
task, a heartbeat with a non-nil detail is a no-op. -/
theorem recordHeartbeat_local_noop_witness :
    RecordActivityHeartbeat
        (WithLocalActivityTask Option.none sampleLocalTask sampleConverter)
        [Option.some 5] =
      Option.some HeartbeatOutcome.noop :=
  recordHeartbeat_local_noop
    (WithLocalActivityTask Option.none sampleLocalTask sampleConverter)
    { workflowType := Option.some ⟨"wf"⟩
      workflowNamespace := "ns"
      taskQueue := "tq"
      activityType := ⟨"act"⟩
      activityID := "la1"
      workflowExecution := { ID := "wid", RunID := "rid" }
      isLocalActivity := true
      dataConverter := sampleConverter
      attempt := 1 }
    [Option.some 5] rfl rfl

/-- Claim C7: when the environment holds no previous-attempt heartbeat
payload, HasHeartbeatDetails is false and GetHeartbeatDetails fails with
ErrNoData; when a payload is present, GetHeartbeatDetails decodes it through
the codec into the caller-supplied slots, returning ok on success and
propagating the codec's decoding failure. -/
theorem heartbeatDetails_access (ctx : Context) (env : activityEnvironment)
    (henv : getActivityEnv ctx = Option.some env) :
    (env.heartbeatDetails = Option.none →
      HasHeartbeatDetails ctx = Option.some false ∧
      ∀ d, GetHeartbeatDetails ctx d =
        Option.some (Except.error HeartbeatDetailsError.ErrNoData)) ∧
    (∀ payload, env.heartbeatDetails = Option.some payload →
      HasHeartbeatDetails ctx = Option.some true ∧
      ∀ d,
        (∀ e, env.dataConverter.decode payload d = Option.some e →
          GetHeartbeatDetails ctx d =
            Option.some (Except.error (HeartbeatDetailsError.decodeError e))) ∧
        (env.dataConverter.decode payload d = Option.none →
          GetHeartbeatDetails ctx d = Option.some (Except.ok ()))) := by
  refine ⟨fun habs => ⟨?_, fun d => ?_⟩, fun payload hp => ⟨?_, fun d => ⟨fun e he => ?_, fun hok => ?_⟩⟩⟩ <;>
    simp_all [HasHeartbeatDetails, GetHeartbeatDetails, henv]

/-- Witness for C7: the sample remote environment (no stored payload) reports
no heartbeat details and ErrNoData, while the environment storing payload [3]
with a failing decode side reports details present and propagates the decode
error. -/
theorem heartbeatDetails_access_witness :
    (HasHeartbeatDetails [remoteEnvSample] = Option.some false ∧
      GetHeartbeatDetails [remoteEnvSample] [0] =
        Option.some (Except.error HeartbeatDetailsError.ErrNoData)) ∧
    (HasHeartbeatDetails [storedDetailsEnv] = Option.some true ∧
      GetHeartbeatDetails [storedDetailsEnv] [0] =
        Option.some
          (Except.error (HeartbeatDetailsError.decodeError "decode failed"))) :=
  ⟨⟨((heartbeatDetails_access [remoteEnvSample] remoteEnvSample rfl).1 rfl).1,
    ((heartbeatDetails_access [remoteEnvSample] remoteEnvSample rfl).1 rfl).2 [0]⟩,
   ⟨((heartbeatDetails_access [storedDetailsEnv] storedDetailsEnv rfl).2 [3] rfl).1,
    (((heartbeatDetails_access [storedDetailsEnv] storedDetailsEnv rfl).2 [3] rfl).2 [0]).1
      "decode failed" rfl⟩⟩

/-- Claim C8: for every remote task descriptor, GetActivityInfo on the
context freshly returned by WithActivityTask yields an info whose Attempt
equals the task's attempt field and whose WorkflowExecution is exactly the
task's workflow id and run id. -/
theorem withActivityTask_info_roundtrip (ctx : Context)
    (task : PollActivityTaskQueueResponse) (taskQueue : String)
    (invoker : ServiceInvoker) (dc : DataConverter) :
    Option.map (fun info => (info.Attempt, info.WorkflowExecution))
        (GetActivityInfo (WithActivityTask ctx task taskQueue invoker dc)) =
      Option.some
        (task.Attempt,
          { ID := task.WorkflowExecution.WorkflowId
            RunID := task.WorkflowExecution.RunId }) := rfl

/-- Claim C9: WithLocalActivityTask attaches an environment with
isLocalActivity = true, no task token, no service invoker, and workflow
type, namespace, task queue and workflow execution copied from the owning
workflow's info; and a nil base context is replaced by a fresh background
context. -/
theorem withLocalActivityTask_env (ctx : Option Context)
    (task : localActivityTask) (dc : DataConverter) :
    Option.map
        (fun env =>
          (env.isLocalActivity, env.taskToken, env.serviceInvoker.isNone,
            env.workflowType, env.workflowNamespace, env.taskQueue,
            env.workflowExecution))
        (getActivityEnv (WithLocalActivityTask ctx task dc)) =
      Option.some
        (true, Option.none, true,
          Option.some task.params.WorkflowInfo.WorkflowType,
          task.params.WorkflowInfo.Namespace,
          task.params.WorkflowInfo.TaskQueueName,
          task.params.WorkflowInfo.WorkflowExecution) ∧
    WithLocalActivityTask Option.none task dc =
      WithLocalActivityTask (Option.some Context.background) task dc :=
  ⟨rfl, rfl⟩

/-- Claim C10: GetActivityInfo on a context produced by WithLocalActivityTask
returns a nil TaskToken and the zero values for Deadline, ScheduledTime,
StartedTime and HeartbeatTimeout — the local constructor never sets them. -/
theorem localActivityInfo_zero_timings (ctx : Option Context)
    (task : localActivityTask) (dc : DataConverter) :
    Option.map
        (fun info =>
          (info.TaskToken, info.Deadline, info.ScheduledTime, info.StartedTime,
            info.HeartbeatTimeout))
        (GetActivityInfo (WithLocalActivityTask ctx task dc)) =
      Option.some (Option.none, 0, 0, 0, 0) := rfl
